import Mathlib

/-!
Verification of the replay-context assembly pipeline of langfuse-gosdk
(examples/fetch and the replay-enabled chat demo).

The Go code is shallowly embedded: untyped JSON values (`interface{}` in
Go) become the inductive `JsonValue`; Go maps (`map[string]any`) become
association lists of string keys (Go maps are unordered, so the list
order is representation-internal); `float64` fields become `Rat`
(Go's JSON codec round-trips every finite float64 exactly, which `Rat`
models); `time.Time` instants become `GoTime := Int` (epoch
milliseconds), and the RFC3339Nano rendering of an instant is modelled
by its decimal numeral.  `time.Now()` is an effect, so builder methods
that call it take the current instant as an explicit parameter.
-/

/-- Untyped JSON value, the Go `interface{}` shape produced by
`encoding/json.Unmarshal`.  A Go `nil` interface and a JSON `null`
both unmarshal to `nil`, modelled by `JsonValue.null`. -/
inductive JsonValue where
  | null
  | bool (b : Bool)
  | num (q : Rat)
  | str (s : String)
  | arr (elems : List JsonValue)
  | obj (fields : List (String × JsonValue))

/-- Messages produced by the normalizer are Go `map[string]any` values. -/
abbrev MessageObject := List (String × JsonValue)

/-- Epoch-milliseconds instant modelling a Go `time.Time`. -/
abbrev GoTime := Int

/-- Decimal rendering of an instant, standing in for
`time.Time.Format(time.RFC3339Nano)` (an injective rendering; no claim
inspects the textual format). -/
def formatGoTime (t : GoTime) : String := toString t

/-- Subset of `langfuse.ObservationDetails` used by the extraction
pipeline (examples/fetch); the remaining fields (`Name`, `Model`,
`Usage`, ...) are never consulted by the code under verification.
Go's `Type` field is spelled `type` because `Type` is reserved in Lean. -/
structure ObservationDetails where
  ID : String
  type : String
  Input : JsonValue
  Output : JsonValue

/-- Subset of `langfuse.TraceWithFullDetails` used by the extraction
pipeline. -/
structure TraceWithFullDetails where
  ID : String
  Observations : List ObservationDetails

/-- Loop body shared by the two array branches of the fetch example:
`for _, item := range array { if msgMap, ok := item.(map[string]any); ok
{ contextMessages = append(contextMessages, msgMap) } }`. -/
def collectMessageObjects : List JsonValue → List MessageObject
  | [] => []
  | .obj fields :: rest => fields :: collectMessageObjects rest
  | _ :: rest => collectMessageObjects rest

/-- Input normalization of the fetch example (part_000 lines 85-104):
`nil` contributes nothing; an array keeps exactly its
`map[string]any` elements; every other value — there is no
single-object case on the input side — is wrapped as
`{"role": "user", "content": value}`. -/
def normalizeInput : JsonValue → List MessageObject
  | .null => []
  | .arr items => collectMessageObjects items
  | v => [[("role", .str "user"), ("content", v)]]

/-- Output normalization of the fetch example (part_000 lines 107-131):
`nil` contributes nothing; an array keeps exactly its
`map[string]any` elements; a single `map[string]any` is appended
as-is; every other value is wrapped as
`{"role": "assistant", "content": value}`. -/
def normalizeOutput : JsonValue → List MessageObject
  | .null => []
  | .arr items => collectMessageObjects items
  | .obj fields => [fields]
  | v => [[("role", .str "assistant"), ("content", v)]]

/-- First-GENERATION scan of the fetch example (part_000 lines 50-56):
walk `trace.Observations` in stored order and stop at the first
observation whose `Type` equals `"GENERATION"`. -/
def firstGeneration : List ObservationDetails → Option ObservationDetails
  | [] => none
  | o :: rest => if o.type = "GENERATION" then some o else firstGeneration rest

/-- Context assembly of the fetch example: locate the first GENERATION
observation (failing — `log.Fatalf("No generation found in trace")`,
modelled as `none` — when there is none) and concatenate the
normalization of its input with the normalization of its output. -/
def extractContextMessages (observations : List ObservationDetails) :
    Option (List MessageObject) :=
  match firstGeneration observations with
  | none => none
  | some g => some (normalizeInput g.Input ++ normalizeOutput g.Output)

/-- Role constants of the go-openai client library. -/
def ChatMessageRoleSystem : String := "system"

/-- Role constant for user messages. -/
def ChatMessageRoleUser : String := "user"

/-- Role constant for assistant messages. -/
def ChatMessageRoleAssistant : String := "assistant"

/-- Role constant for tool-result messages. -/
def ChatMessageRoleTool : String := "tool"

/-- Subset of go-openai's `ChatCompletionMessage` populated by
`ReplayContext.ToOpenAIMessages` (the remaining fields are left at
their zero values by that code). -/
structure ChatCompletionMessage where
  Role : String
  Content : String
  ToolCallID : String

/-- go-openai `FunctionDefinition` (the fields read by `SetTools`). -/
structure FunctionDefinition where
  Name : String
  Description : String
  Parameters : JsonValue

/-- go-openai `Tool` as consumed by `SetTools`; the Go field is a
pointer `*FunctionDefinition`, always non-nil at the call sites, so it
is modelled as a value. -/
structure Tool where
  type : String
  Function : FunctionDefinition

/-- Model configuration stored in a replay context (part_003 lines 74-83). -/
structure ModelConfig where
  Model : String
  BaseURL : String
  Temperature : Rat
  MaxTokens : Int
  TopP : Rat
  FrequencyPenalty : Rat
  PresencePenalty : Rat
  ExtraParams : List (String × JsonValue)

/-- System prompt stored in a replay context (part_003 lines 86-90). -/
structure SystemPrompt where
  Content : String
  Role : String
  Metadata : List (String × JsonValue)

/-- Tool definition stored in a replay context (part_003 lines 93-96).
Go's `Type` field is spelled `type`. -/
structure ToolDefinition where
  type : String
  Function : List (String × JsonValue)

/-- User half of a turn (part_003 lines 119-122). -/
structure UserMessage where
  Role : String
  Content : String

/-- Assistant half of a turn (part_003 lines 125-131). -/
structure LLMResponse where
  Role : String
  Content : String
  ToolCalls : Bool
  Reasoning : String
  FinishReason : String

/-- One recorded tool invocation (part_003 lines 134-144); the
`StartTime`/`EndTime` fields hold the formatted instants, as in Go. -/
structure ToolCallExecution where
  ToolName : String
  ToolID : String
  Arguments : List (String × JsonValue)
  Result : String
  StartTime : String
  EndTime : String
  DurationMs : Int
  Success : Bool
  Error : String

/-- Token usage of one turn (part_003 lines 147-151). -/
structure TokenUsage where
  PromptTokens : Int
  CompletionTokens : Int
  TotalTokens : Int

/-- Session metadata of a replay context (part_003 lines 154-161). -/
structure SessionMetadata where
  Environment : String
  Tags : List String
  CustomFields : List (String × JsonValue)
  ResponseTimeMs : Int
  TotalCost : Rat
  AdditionalInfo : List (String × JsonValue)

/-- One conversation round (part_003 lines 99-116). -/
structure ConversationTurn where
  Round : Int
  Timestamp : String
  TurnID : String
  UserInput : UserMessage
  LLMResponse : LLMResponse
  ToolCalls : List ToolCallExecution
  TokenUsage : TokenUsage

/-- Complete replay context (part_003 lines 50-71). -/
structure ReplayContext where
  SessionID : String
  UserID : String
  TraceID : String
  Timestamp : GoTime
  ModelConfig : ModelConfig
  SystemPrompt : SystemPrompt
  Tools : List ToolDefinition
  ConversationHistory : List ConversationTurn
  Metadata : SessionMetadata

/-- Mutable accumulator for replay contexts (part_003 lines 168-176). -/
structure ContextBuilder where
  sessionID : String
  userID : String
  modelConfig : ModelConfig
  systemPrompt : SystemPrompt
  tools : List ToolDefinition
  conversationCtx : List ConversationTurn
  baseURL : String

/-- Fresh builder (part_003 lines 179-191); every field the Go literal
omits starts at its zero value. -/
def NewContextBuilder (userID baseURL model : String) : ContextBuilder :=
  { sessionID := ""
    userID := userID
    modelConfig :=
      { Model := model
        BaseURL := baseURL
        Temperature := 0.7
        MaxTokens := 2000
        TopP := 0
        FrequencyPenalty := 0
        PresencePenalty := 0
        ExtraParams := [] }
    systemPrompt := { Content := "", Role := "", Metadata := [] }
    tools := []
    conversationCtx := []
    baseURL := baseURL }

/-- Method `SetSessionID` (part_003 lines 194-197). -/
def ContextBuilder.SetSessionID (b : ContextBuilder) (sessionID : String) :
    ContextBuilder :=
  { b with sessionID := sessionID }

/-- Method `SetSystemPrompt` (part_003 lines 200-207): overwrites the whole
`SystemPrompt` value, fixing the role to `"system"`. -/
def ContextBuilder.SetSystemPrompt (b : ContextBuilder) (content : String)
    (metadata : List (String × JsonValue)) : ContextBuilder :=
  { b with systemPrompt := { Content := content, Role := "system", Metadata := metadata } }

/-- Method `SetTools` (part_003 lines 210-223): converts each go-openai tool
into a stored `ToolDefinition`. -/
def ContextBuilder.SetTools (b : ContextBuilder) (tools : List Tool) :
    ContextBuilder :=
  { b with
    tools := tools.map (fun tool =>
      { type := tool.type
        Function :=
          [ ("name", .str tool.Function.Name)
          , ("description", .str tool.Function.Description)
          , ("parameters", tool.Function.Parameters) ] }) }

/-- Method `SetModelParams` (part_003 lines 226-230). -/
def ContextBuilder.SetModelParams (b : ContextBuilder) (temperature : Rat)
    (maxTokens : Int) : ContextBuilder :=
  { b with modelConfig :=
      { b.modelConfig with Temperature := temperature, MaxTokens := maxTokens } }

/-- Method `AddTurn` (part_003 lines 233-252): appends one turn carrying the
caller-supplied round verbatim; `now` stands for the
`time.Now().Format(time.RFC3339Nano)` call inside the method. -/
def ContextBuilder.AddTurn (b : ContextBuilder) (round : Int)
    (userMsg assistantResp : String) (toolCalls : List ToolCallExecution)
    (tokenUsage : TokenUsage) (traceID : String) (now : String) : ContextBuilder :=
  { b with conversationCtx := b.conversationCtx ++
      [ { Round := round
          Timestamp := now
          TurnID := traceID
          UserInput := { Role := "user", Content := userMsg }
          LLMResponse :=
            { Role := "assistant"
              Content := assistantResp
              ToolCalls := !toolCalls.isEmpty
              Reasoning := ""
              FinishReason := "" }
          ToolCalls := toolCalls
          TokenUsage := tokenUsage } ] }

/-- Method `Build` (part_003 lines 255-269): snapshots the current builder
state; `now` stands for the `time.Now()` call inside the method. -/
def ContextBuilder.Build (b : ContextBuilder) (traceID : String) (now : GoTime) :
    ReplayContext :=
  { SessionID := b.sessionID
    UserID := b.userID
    TraceID := traceID
    Timestamp := now
    ModelConfig := b.modelConfig
    SystemPrompt := b.systemPrompt
    Tools := b.tools
    ConversationHistory := b.conversationCtx
    Metadata :=
      { Environment := ""
        Tags := ["replay", "chat"]
        CustomFields := []
        ResponseTimeMs := 0
        TotalCost := 0
        AdditionalInfo := [] } }

/-- Method `ToOpenAIMessages` (part_003 lines 272-302), a direct rendering of
the Go loops: start from the system message, then per turn append the
user message, the assistant message, and one tool message per recorded
tool call. -/
def ReplayContext.ToOpenAIMessages (r : ReplayContext) : List ChatCompletionMessage :=
  r.ConversationHistory.foldl
    (fun messages turn =>
      let messages := messages ++
        [ { Role := ChatMessageRoleUser
            Content := turn.UserInput.Content
            ToolCallID := "" } ]
      let messages := messages ++
        [ { Role := ChatMessageRoleAssistant
            Content := turn.LLMResponse.Content
            ToolCallID := "" } ]
      turn.ToolCalls.foldl
        (fun messages tc =>
          messages ++
            [ { Role := ChatMessageRoleTool
                Content := tc.Result
                ToolCallID := tc.ToolID } ])
        messages)
    [ { Role := ChatMessageRoleSystem
        Content := r.SystemPrompt.Content
        ToolCallID := "" } ]

/-- Tool-execution recording of the demo main loop (part_003 lines
657-667): duration is the difference of the two instants (milliseconds,
see `GoTime`), success is hardcoded `true` and the error field is left
unset. -/
def recordToolExecution (toolName toolID : String)
    (arguments : List (String × JsonValue)) (result : String)
    (startTime endTime : GoTime) : ToolCallExecution :=
  { ToolName := toolName
    ToolID := toolID
    Arguments := arguments
    Result := result
    StartTime := formatGoTime startTime
    EndTime := formatGoTime endTime
    DurationMs := endTime - startTime
    Success := true
    Error := "" }

/-- Field lookup in a marshalled JSON object, as `encoding/json` does
when filling a struct (unknown fields are ignored, missing fields keep
the zero value). -/
def getField (fields : List (String × JsonValue)) (name : String) : Option JsonValue :=
  (fields.find? (fun p => p.1 = name)).map (·.2)

/-- Marshal helper for an `omitempty` string field. -/
def omitemptyStr (name s : String) : List (String × JsonValue) :=
  if s = "" then [] else [(name, .str s)]

/-- Marshal helper for an `omitempty` map field. -/
def omitemptyObj (name : String) (fields : List (String × JsonValue)) :
    List (String × JsonValue) :=
  if fields.isEmpty then [] else [(name, .obj fields)]

/-- Unmarshal a string field: missing or `null` keeps the zero value,
any non-string value is a type error. -/
def decodeStr : Option JsonValue → Option String
  | none => some ""
  | some .null => some ""
  | some (.str s) => some s
  | some _ => none

/-- Unmarshal an integer field: `encoding/json` rejects a fractional
number for an `int` target. -/
def decodeInt : Option JsonValue → Option Int
  | none => some 0
  | some .null => some 0
  | some (.num q) => if q.den = 1 then some q.num else none
  | some _ => none

/-- Unmarshal a `float64` field. -/
def decodeRat : Option JsonValue → Option Rat
  | none => some 0
  | some .null => some 0
  | some (.num q) => some q
  | some _ => none

/-- Unmarshal a `bool` field. -/
def decodeBool : Option JsonValue → Option Bool
  | none => some false
  | some .null => some false
  | some (.bool b) => some b
  | some _ => none

/-- Unmarshal a `map[string]any` field. -/
def decodeObjFields : Option JsonValue → Option (List (String × JsonValue))
  | none => some []
  | some .null => some []
  | some (.obj fields) => some fields
  | some _ => none

/-- Elementwise unmarshal of a JSON array, failing as soon as one
element fails, as `encoding/json` does. -/
def decodeElems (dec : JsonValue → Option α) : List JsonValue → Option (List α)
  | [] => some []
  | j :: rest =>
    match dec j with
    | none => none
    | some a =>
      match decodeElems dec rest with
      | none => none
      | some as => some (a :: as)

/-- Unmarshal a slice field: missing or `null` leaves the nil slice. -/
def decodeArrWith (dec : JsonValue → Option α) : Option JsonValue → Option (List α)
  | none => some []
  | some .null => some []
  | some (.arr elems) => decodeElems dec elems
  | some _ => none

/-- Unmarshal one `[]string` element. -/
def decodeStrElem : JsonValue → Option String
  | .null => some ""
  | .str s => some s
  | _ => none

/-- Marshal a `UserMessage` per its struct tags. -/
def encodeUserMessage (m : UserMessage) : JsonValue :=
  .obj [("role", .str m.Role), ("content", .str m.Content)]

/-- Unmarshal a `UserMessage` struct field. -/
def decodeUserMessage : Option JsonValue → Option UserMessage
  | none => some { Role := "", Content := "" }
  | some .null => some { Role := "", Content := "" }
  | some (.obj fields) => do
    let role ← decodeStr (getField fields "role")
    let content ← decodeStr (getField fields "content")
    pure { Role := role, Content := content }
  | some _ => none

/-- Marshal an `LLMResponse` per its struct tags (`reasoning` and
`finish_reason` are `omitempty`). -/
def encodeLLMResponse (m : LLMResponse) : JsonValue :=
  .obj ([ ("role", .str m.Role)
        , ("content", .str m.Content)
        , ("tool_calls", .bool m.ToolCalls) ]
    ++ omitemptyStr "reasoning" m.Reasoning
    ++ omitemptyStr "finish_reason" m.FinishReason)

/-- Unmarshal an `LLMResponse` struct field. -/
def decodeLLMResponse : Option JsonValue → Option LLMResponse
  | none => some { Role := "", Content := "", ToolCalls := false, Reasoning := "", FinishReason := "" }
  | some .null => some { Role := "", Content := "", ToolCalls := false, Reasoning := "", FinishReason := "" }
  | some (.obj fields) => do
    let role ← decodeStr (getField fields "role")
    let content ← decodeStr (getField fields "content")
    let toolCalls ← decodeBool (getField fields "tool_calls")
    let reasoning ← decodeStr (getField fields "reasoning")
    let finishReason ← decodeStr (getField fields "finish_reason")
    pure { Role := role, Content := content, ToolCalls := toolCalls,
           Reasoning := reasoning, FinishReason := finishReason }
  | some _ => none

/-- Marshal a `ToolCallExecution` per its struct tags (`error` is
`omitempty`). -/
def encodeToolCallExecution (tc : ToolCallExecution) : JsonValue :=
  .obj ([ ("tool_name", .str tc.ToolName)
        , ("tool_id", .str tc.ToolID)
        , ("arguments", .obj tc.Arguments)
        , ("result", .str tc.Result)
        , ("start_time", .str tc.StartTime)
        , ("end_time", .str tc.EndTime)
        , ("duration_ms", .num tc.DurationMs)
        , ("success", .bool tc.Success) ]
    ++ omitemptyStr "error" tc.Error)

/-- Unmarshal one `ToolCallExecution` array element. -/
def decodeToolCallExecution : JsonValue → Option ToolCallExecution
  | .obj fields => do
    let toolName ← decodeStr (getField fields "tool_name")
    let toolID ← decodeStr (getField fields "tool_id")
    let arguments ← decodeObjFields (getField fields "arguments")
    let result ← decodeStr (getField fields "result")
    let startTime ← decodeStr (getField fields "start_time")
    let endTime ← decodeStr (getField fields "end_time")
    let durationMs ← decodeInt (getField fields "duration_ms")
    let success ← decodeBool (getField fields "success")
    let error ← decodeStr (getField fields "error")
    pure { ToolName := toolName, ToolID := toolID, Arguments := arguments,
           Result := result, StartTime := startTime, EndTime := endTime,
           DurationMs := durationMs, Success := success, Error := error }
  | _ => none

/-- Marshal a `TokenUsage` per its struct tags. -/
def encodeTokenUsage (u : TokenUsage) : JsonValue :=
  .obj [ ("prompt_tokens", .num u.PromptTokens)
       , ("completion_tokens", .num u.CompletionTokens)
       , ("total_tokens", .num u.TotalTokens) ]

/-- Unmarshal a `TokenUsage` struct field. -/
def decodeTokenUsage : Option JsonValue → Option TokenUsage
  | none => some { PromptTokens := 0, CompletionTokens := 0, TotalTokens := 0 }
  | some .null => some { PromptTokens := 0, CompletionTokens := 0, TotalTokens := 0 }
  | some (.obj fields) => do
    let promptTokens ← decodeInt (getField fields "prompt_tokens")
    let completionTokens ← decodeInt (getField fields "completion_tokens")
    let totalTokens ← decodeInt (getField fields "total_tokens")
    pure { PromptTokens := promptTokens, CompletionTokens := completionTokens,
           TotalTokens := totalTokens }
  | some _ => none

/-- Marshal a `ConversationTurn` per its struct tags (`tool_calls` is
`omitempty`). -/
def encodeConversationTurn (t : ConversationTurn) : JsonValue :=
  .obj ([ ("round", .num t.Round)
        , ("timestamp", .str t.Timestamp)
        , ("turn_id", .str t.TurnID)
        , ("user_input", encodeUserMessage t.UserInput)
        , ("llm_response", encodeLLMResponse t.LLMResponse) ]
    ++ (if t.ToolCalls.isEmpty then []
        else [("tool_calls", .arr (t.ToolCalls.map encodeToolCallExecution))])
    ++ [("token_usage", encodeTokenUsage t.TokenUsage)])

/-- Unmarshal one `ConversationTurn` array element. -/
def decodeConversationTurn : JsonValue → Option ConversationTurn
  | .obj fields => do
    let round ← decodeInt (getField fields "round")
    let timestamp ← decodeStr (getField fields "timestamp")
    let turnID ← decodeStr (getField fields "turn_id")
    let userInput ← decodeUserMessage (getField fields "user_input")
    let llmResponse ← decodeLLMResponse (getField fields "llm_response")
    let toolCalls ← decodeArrWith decodeToolCallExecution (getField fields "tool_calls")
    let tokenUsage ← decodeTokenUsage (getField fields "token_usage")
    pure { Round := round, Timestamp := timestamp, TurnID := turnID,
           UserInput := userInput, LLMResponse := llmResponse,
           ToolCalls := toolCalls, TokenUsage := tokenUsage }
  | _ => none

/-- Marshal a `ModelConfig` per its struct tags (`extra_params` is
`omitempty`). -/
def encodeModelConfig (mc : ModelConfig) : JsonValue :=
  .obj ([ ("model", .str mc.Model)
        , ("base_url", .str mc.BaseURL)
        , ("temperature", .num mc.Temperature)
        , ("max_tokens", .num mc.MaxTokens)
        , ("top_p", .num mc.TopP)
        , ("frequency_penalty", .num mc.FrequencyPenalty)
        , ("presence_penalty", .num mc.PresencePenalty) ]
    ++ omitemptyObj "extra_params" mc.ExtraParams)

/-- Unmarshal a `ModelConfig` struct field. -/
def decodeModelConfig : Option JsonValue → Option ModelConfig
  | none => some { Model := "", BaseURL := "", Temperature := 0, MaxTokens := 0,
                   TopP := 0, FrequencyPenalty := 0, PresencePenalty := 0, ExtraParams := [] }
  | some .null => some { Model := "", BaseURL := "", Temperature := 0, MaxTokens := 0,
                         TopP := 0, FrequencyPenalty := 0, PresencePenalty := 0, ExtraParams := [] }
  | some (.obj fields) => do
    let model ← decodeStr (getField fields "model")
    let baseURL ← decodeStr (getField fields "base_url")
    let temperature ← decodeRat (getField fields "temperature")
    let maxTokens ← decodeInt (getField fields "max_tokens")
    let topP ← decodeRat (getField fields "top_p")
    let frequencyPenalty ← decodeRat (getField fields "frequency_penalty")
    let presencePenalty ← decodeRat (getField fields "presence_penalty")
    let extraParams ← decodeObjFields (getField fields "extra_params")
    pure { Model := model, BaseURL := baseURL, Temperature := temperature,
           MaxTokens := maxTokens, TopP := topP, FrequencyPenalty := frequencyPenalty,
           PresencePenalty := presencePenalty, ExtraParams := extraParams }
  | some _ => none

/-- Marshal a `SystemPrompt` per its struct tags (`metadata` is
`omitempty`). -/
def encodeSystemPrompt (sp : SystemPrompt) : JsonValue :=
  .obj ([ ("content", .str sp.Content)
        , ("role", .str sp.Role) ]
    ++ omitemptyObj "metadata" sp.Metadata)

/-- Unmarshal a `SystemPrompt` struct field. -/
def decodeSystemPrompt : Option JsonValue → Option SystemPrompt
  | none => some { Content := "", Role := "", Metadata := [] }
  | some .null => some { Content := "", Role := "", Metadata := [] }
  | some (.obj fields) => do
    let content ← decodeStr (getField fields "content")
    let role ← decodeStr (getField fields "role")
    let metadata ← decodeObjFields (getField fields "metadata")
    pure { Content := content, Role := role, Metadata := metadata }
  | some _ => none

/-- Marshal a `ToolDefinition` per its struct tags. -/
def encodeToolDefinition (td : ToolDefinition) : JsonValue :=
  .obj [("type", .str td.type), ("function", .obj td.Function)]

/-- Unmarshal one `ToolDefinition` array element. -/
def decodeToolDefinition : JsonValue → Option ToolDefinition
  | .obj fields => do
    let ty ← decodeStr (getField fields "type")
    let fn ← decodeObjFields (getField fields "function")
    pure { type := ty, Function := fn }
  | _ => none

/-- Marshal a `SessionMetadata` per its struct tags (`custom_fields`,
`total_cost` and `additional_info` are `omitempty`). -/
def encodeSessionMetadata (m : SessionMetadata) : JsonValue :=
  .obj ([ ("environment", .str m.Environment)
        , ("tags", .arr (m.Tags.map JsonValue.str))
        , ("response_time_ms", .num m.ResponseTimeMs) ]
    ++ omitemptyObj "custom_fields" m.CustomFields
    ++ (if m.TotalCost = 0 then [] else [("total_cost", .num m.TotalCost)])
    ++ omitemptyObj "additional_info" m.AdditionalInfo)

/-- Unmarshal a `SessionMetadata` struct field. -/
def decodeSessionMetadata : Option JsonValue → Option SessionMetadata
  | none => some { Environment := "", Tags := [], CustomFields := [],
                   ResponseTimeMs := 0, TotalCost := 0, AdditionalInfo := [] }
  | some .null => some { Environment := "", Tags := [], CustomFields := [],
                         ResponseTimeMs := 0, TotalCost := 0, AdditionalInfo := [] }
  | some (.obj fields) => do
    let environment ← decodeStr (getField fields "environment")
    let tags ← decodeArrWith decodeStrElem (getField fields "tags")
    let customFields ← decodeObjFields (getField fields "custom_fields")
    let responseTimeMs ← decodeInt (getField fields "response_time_ms")
    let totalCost ← decodeRat (getField fields "total_cost")
    let additionalInfo ← decodeObjFields (getField fields "additional_info")
    pure { Environment := environment, Tags := tags, CustomFields := customFields,
           ResponseTimeMs := responseTimeMs, TotalCost := totalCost,
           AdditionalInfo := additionalInfo }
  | some _ => none

/-- Method `ToJSON` (part_003 lines 305-311): marshal the replay context per
its struct tags.  The serialized document is modelled as the JSON tree
(`json.MarshalIndent` renders this tree as text and parsing that text
recovers the tree; the time.Time field is serialized as its abstract
epoch value, see `GoTime`). -/
def ReplayContext.ToJSON (r : ReplayContext) : JsonValue :=
  .obj [ ("session_id", .str r.SessionID)
       , ("user_id", .str r.UserID)
       , ("trace_id", .str r.TraceID)
       , ("timestamp", .num r.Timestamp)
       , ("model_config", encodeModelConfig r.ModelConfig)
       , ("system_prompt", encodeSystemPrompt r.SystemPrompt)
       , ("tools", .arr (r.Tools.map encodeToolDefinition))
       , ("conversation_history", .arr (r.ConversationHistory.map encodeConversationTurn))
       , ("metadata", encodeSessionMetadata r.Metadata) ]

/-- Decoder for a serialized replay context, the
`json.Unmarshal(replayContextJSON, &replayCtx)` step the demo
prescribes for replaying, per the struct tags of `ReplayContext`
(spec 4.5: `decode(document) -> ReplayContext`; malformed documents are
hard errors). -/
def decodeReplayContext : JsonValue → Option ReplayContext
  | .null => some { SessionID := "", UserID := "", TraceID := "", Timestamp := 0,
                    ModelConfig := { Model := "", BaseURL := "", Temperature := 0,
                                     MaxTokens := 0, TopP := 0, FrequencyPenalty := 0,
                                     PresencePenalty := 0, ExtraParams := [] },
                    SystemPrompt := { Content := "", Role := "", Metadata := [] },
                    Tools := [], ConversationHistory := [],
                    Metadata := { Environment := "", Tags := [], CustomFields := [],
                                  ResponseTimeMs := 0, TotalCost := 0, AdditionalInfo := [] } }
  | .obj fields => do
    let sessionID ← decodeStr (getField fields "session_id")
    let userID ← decodeStr (getField fields "user_id")
    let traceID ← decodeStr (getField fields "trace_id")
    let timestamp ← decodeInt (getField fields "timestamp")
    let modelConfig ← decodeModelConfig (getField fields "model_config")
    let systemPrompt ← decodeSystemPrompt (getField fields "system_prompt")
    let tools ← decodeArrWith decodeToolDefinition (getField fields "tools")
    let conversationHistory ← decodeArrWith decodeConversationTurn
      (getField fields "conversation_history")
    let metadata ← decodeSessionMetadata (getField fields "metadata")
    pure { SessionID := sessionID, UserID := userID, TraceID := traceID,
           Timestamp := timestamp, ModelConfig := modelConfig,
           SystemPrompt := systemPrompt, Tools := tools,
           ConversationHistory := conversationHistory, Metadata := metadata }
  | _ => none

/-- One call against the builder API, used to quantify over arbitrary
mutation sequences. -/
inductive BuilderOp where
  | addTurn (round : Int) (userMsg assistantResp : String)
      (toolCalls : List ToolCallExecution) (tokenUsage : TokenUsage)
      (traceID : String) (now : String)
  | setSessionID (sessionID : String)
  | setSystemPrompt (content : String) (metadata : List (String × JsonValue))
  | setTools (tools : List Tool)
  | setModelParams (temperature : Rat) (maxTokens : Int)

/-- Whether an operation is a `SetSystemPrompt` call. -/
def BuilderOp.isSetSystemPrompt : BuilderOp → Bool
  | .setSystemPrompt _ _ => true
  | _ => false

/-- Apply one builder operation. -/
def applyOp (b : ContextBuilder) : BuilderOp → ContextBuilder
  | .addTurn round userMsg assistantResp toolCalls tokenUsage traceID now =>
    b.AddTurn round userMsg assistantResp toolCalls tokenUsage traceID now
  | .setSessionID sessionID => b.SetSessionID sessionID
  | .setSystemPrompt content metadata => b.SetSystemPrompt content metadata
  | .setTools tools => b.SetTools tools
  | .setModelParams temperature maxTokens => b.SetModelParams temperature maxTokens

/-- Apply a sequence of builder operations in order. -/
def applyOps (b : ContextBuilder) : List BuilderOp → ContextBuilder
  | [] => b
  | op :: rest => applyOps (applyOp b op) rest

/-- Payload of one `AddTurn` call when the caller numbers rounds
sequentially. -/
structure AddTurnCall where
  userMsg : String
  assistantResp : String
  toolCalls : List ToolCallExecution
  tokenUsage : TokenUsage
  traceID : String
  now : String

/-- Issue successive `AddTurn` calls with rounds `k, k+1, ...`, the
way the demo's question loop calls `AddTurn(i+1, ...)`. -/
def applyAddTurnCalls (b : ContextBuilder) (k : Nat) : List AddTurnCall → ContextBuilder
  | [] => b
  | c :: rest =>
    applyAddTurnCalls
      (b.AddTurn (k : Int) c.userMsg c.assistantResp c.toolCalls c.tokenUsage c.traceID c.now)
      (k + 1) rest

/-- The three messages contributed by one turn in the canonical
projection: user, assistant, then one tool message per recorded call. -/
def turnMessages (turn : ConversationTurn) : List ChatCompletionMessage :=
  { Role := ChatMessageRoleUser, Content := turn.UserInput.Content, ToolCallID := "" } ::
  { Role := ChatMessageRoleAssistant, Content := turn.LLMResponse.Content, ToolCallID := "" } ::
  turn.ToolCalls.map (fun tc =>
    { Role := ChatMessageRoleTool, Content := tc.Result, ToolCallID := tc.ToolID })

theorem foldl_append_map {α β : Type} (g : α → β) :
    ∀ (l : List α) (init : List β),
      List.foldl (fun ms x => ms ++ [g x]) init l = init ++ l.map g := by
  intro l
  induction l with
  | nil => intro init; simp
  | cons a t ih => intro init; simp [List.foldl_cons, ih]

theorem toOpenAIMessages_foldl (l : List ConversationTurn) :
    ∀ init : List ChatCompletionMessage,
      List.foldl
        (fun messages turn =>
          let messages := messages ++
            [ { Role := ChatMessageRoleUser
                Content := turn.UserInput.Content
                ToolCallID := "" } ]
          let messages := messages ++
            [ { Role := ChatMessageRoleAssistant
                Content := turn.LLMResponse.Content
                ToolCallID := "" } ]
          turn.ToolCalls.foldl
            (fun messages tc =>
              messages ++
                [ { Role := ChatMessageRoleTool
                    Content := tc.Result
                    ToolCallID := tc.ToolID } ])
            messages)
        init l = init ++ l.flatMap turnMessages := by
  induction l with
  | nil => intro init; simp
  | cons turn rest ih =>
    intro init
    rw [List.foldl_cons, ih]
    simp [turnMessages, foldl_append_map, List.append_assoc]

/-- The canonical projection, in closed form. -/
theorem toOpenAIMessages_eq (r : ReplayContext) :
    r.ToOpenAIMessages =
      { Role := ChatMessageRoleSystem, Content := r.SystemPrompt.Content, ToolCallID := "" } ::
        r.ConversationHistory.flatMap turnMessages := by
  unfold ReplayContext.ToOpenAIMessages
  rw [toOpenAIMessages_foldl]
  rfl

theorem decodeUserMessage_encode (m : UserMessage) :
    decodeUserMessage (some (encodeUserMessage m)) = some m := rfl

theorem decodeLLMResponse_encode (m : LLMResponse) :
    decodeLLMResponse (some (encodeLLMResponse m)) = some m := by
  rcases m with ⟨role, content, toolCalls, reasoning, finishReason⟩
  by_cases h1 : reasoning = "" <;> by_cases h2 : finishReason = "" <;>
    simp [encodeLLMResponse, decodeLLMResponse, omitemptyStr, h1, h2, getField,
      List.find?, decodeStr, decodeBool]

theorem decodeToolCallExecution_encode (tc : ToolCallExecution) :
    decodeToolCallExecution (encodeToolCallExecution tc) = some tc := by
  rcases tc with ⟨toolName, toolID, arguments, result, startTime, endTime, durationMs, success, error⟩
  by_cases h : error = "" <;>
    simp [encodeToolCallExecution, decodeToolCallExecution, omitemptyStr, h, getField,
      List.find?, decodeStr, decodeBool, decodeInt, decodeObjFields,
      Rat.den_intCast, Rat.num_intCast]

theorem decodeTokenUsage_encode (u : TokenUsage) :
    decodeTokenUsage (some (encodeTokenUsage u)) = some u := by
  rcases u with ⟨promptTokens, completionTokens, totalTokens⟩
  simp [encodeTokenUsage, decodeTokenUsage, getField, List.find?, decodeInt,
    Rat.den_intCast, Rat.num_intCast]

theorem decodeElems_map {α : Type} (enc : α → JsonValue) (dec : JsonValue → Option α)
    (h : ∀ a, dec (enc a) = some a) :
    ∀ l : List α, decodeElems dec (l.map enc) = some l := by
  intro l
  induction l with
  | nil => rfl
  | cons a t ih => simp [decodeElems, h, ih]

theorem decodeElems_toolCalls (l : List ToolCallExecution) :
    decodeElems decodeToolCallExecution (l.map encodeToolCallExecution) = some l :=
  decodeElems_map _ _ decodeToolCallExecution_encode l

theorem decodeConversationTurn_encode (t : ConversationTurn) :
    decodeConversationTurn (encodeConversationTurn t) = some t := by
  rcases t with ⟨round, timestamp, turnID, userInput, llmResponse, toolCalls, tokenUsage⟩
  cases toolCalls with
  | nil =>
    simp [encodeConversationTurn, decodeConversationTurn, getField, List.find?,
      decodeStr, decodeInt, decodeArrWith, Rat.den_intCast, Rat.num_intCast,
      decodeUserMessage_encode, decodeLLMResponse_encode, decodeTokenUsage_encode]
  | cons tc rest =>
    simp [encodeConversationTurn, decodeConversationTurn, getField, List.find?,
      decodeStr, decodeInt, decodeArrWith, Rat.den_intCast, Rat.num_intCast,
      decodeUserMessage_encode, decodeLLMResponse_encode, decodeTokenUsage_encode,
      decodeElems, decodeToolCallExecution_encode, decodeElems_toolCalls]

theorem decodeModelConfig_encode (mc : ModelConfig) :
    decodeModelConfig (some (encodeModelConfig mc)) = some mc := by
  rcases mc with ⟨model, baseURL, temperature, maxTokens, topP, frequencyPenalty,
    presencePenalty, extraParams⟩
  cases extraParams with
  | nil =>
    simp [encodeModelConfig, decodeModelConfig, omitemptyObj, getField, List.find?,
      decodeStr, decodeInt, decodeRat, decodeObjFields, Rat.den_intCast, Rat.num_intCast]
  | cons p rest =>
    simp [encodeModelConfig, decodeModelConfig, omitemptyObj, getField, List.find?,
      decodeStr, decodeInt, decodeRat, decodeObjFields, Rat.den_intCast, Rat.num_intCast]

theorem decodeSystemPrompt_encode (sp : SystemPrompt) :
    decodeSystemPrompt (some (encodeSystemPrompt sp)) = some sp := by
  rcases sp with ⟨content, role, metadata⟩
  cases metadata with
  | nil =>
    simp [encodeSystemPrompt, decodeSystemPrompt, omitemptyObj, getField, List.find?,
      decodeStr, decodeObjFields]
  | cons p rest =>
    simp [encodeSystemPrompt, decodeSystemPrompt, omitemptyObj, getField, List.find?,
      decodeStr, decodeObjFields]

theorem decodeToolDefinition_encode (td : ToolDefinition) :
    decodeToolDefinition (encodeToolDefinition td) = some td := rfl

theorem decodeElems_toolDefs (l : List ToolDefinition) :
    decodeElems decodeToolDefinition (l.map encodeToolDefinition) = some l :=
  decodeElems_map _ _ decodeToolDefinition_encode l

theorem decodeElems_turns (l : List ConversationTurn) :
    decodeElems decodeConversationTurn (l.map encodeConversationTurn) = some l :=
  decodeElems_map _ _ decodeConversationTurn_encode l

theorem decodeElems_tags (l : List String) :
    decodeElems decodeStrElem (l.map JsonValue.str) = some l :=
  decodeElems_map JsonValue.str decodeStrElem (fun _ => rfl) l

theorem decodeSessionMetadata_encode (m : SessionMetadata) :
    decodeSessionMetadata (some (encodeSessionMetadata m)) = some m := by
  rcases m with ⟨environment, tags, customFields, responseTimeMs, totalCost, additionalInfo⟩
  by_cases h : totalCost = 0 <;>
    cases customFields <;> cases additionalInfo <;>
      simp [encodeSessionMetadata, decodeSessionMetadata, omitemptyObj, h, getField,
        List.find?, decodeStr, decodeInt, decodeRat, decodeObjFields, decodeArrWith,
        decodeElems_tags, Rat.den_intCast, Rat.num_intCast]

theorem decodeReplayContext_ToJSON (r : ReplayContext) :
    decodeReplayContext r.ToJSON = some r := by
  rcases r with ⟨sessionID, userID, traceID, timestamp, modelConfig, systemPrompt,
    tools, conversationHistory, metadata⟩
  simp [ReplayContext.ToJSON, decodeReplayContext, getField, List.find?, decodeStr,
    decodeInt, decodeArrWith, Rat.den_intCast, Rat.num_intCast,
    decodeModelConfig_encode, decodeSystemPrompt_encode, decodeSessionMetadata_encode,
    decodeElems_toolDefs, decodeElems_turns]

theorem applyOp_ctx_append (b : ContextBuilder) (op : BuilderOp) :
    ∃ tail, (applyOp b op).conversationCtx = b.conversationCtx ++ tail := by
  cases op with
  | addTurn round userMsg assistantResp toolCalls tokenUsage traceID now =>
    exact ⟨_, rfl⟩
  | setSessionID sessionID => exact ⟨[], by simp [applyOp, ContextBuilder.SetSessionID]⟩
  | setSystemPrompt content metadata =>
    exact ⟨[], by simp [applyOp, ContextBuilder.SetSystemPrompt]⟩
  | setTools tools => exact ⟨[], by simp [applyOp, ContextBuilder.SetTools]⟩
  | setModelParams temperature maxTokens =>
    exact ⟨[], by simp [applyOp, ContextBuilder.SetModelParams]⟩

theorem applyOps_ctx_append :
    ∀ (ops : List BuilderOp) (b : ContextBuilder),
      ∃ tail, (applyOps b ops).conversationCtx = b.conversationCtx ++ tail := by
  intro ops
  induction ops with
  | nil => intro b; exact ⟨[], by simp [applyOps]⟩
  | cons op rest ih =>
    intro b
    obtain ⟨t1, h1⟩ := applyOp_ctx_append b op
    obtain ⟨t2, h2⟩ := ih (applyOp b op)
    exact ⟨t1 ++ t2, by rw [applyOps, h2, h1, List.append_assoc]⟩

theorem applyOps_systemPrompt :
    ∀ (ops : List BuilderOp) (b : ContextBuilder),
      (∀ op ∈ ops, op.isSetSystemPrompt = false) →
        (applyOps b ops).systemPrompt = b.systemPrompt := by
  intro ops
  induction ops with
  | nil => intro b _; rfl
  | cons op rest ih =>
    intro b h
    rw [applyOps, ih _ (fun o ho => h o (List.mem_cons_of_mem _ ho))]
    have hop := h op (List.mem_cons_self op rest)
    cases op with
    | addTurn round userMsg assistantResp toolCalls tokenUsage traceID now => rfl
    | setSessionID sessionID => rfl
    | setSystemPrompt content metadata => simp [BuilderOp.isSetSystemPrompt] at hop
    | setTools tools => rfl
    | setModelParams temperature maxTokens => rfl

theorem applyAddTurnCalls_rounds :
    ∀ (calls : List AddTurnCall) (b : ContextBuilder) (k : Nat),
      (applyAddTurnCalls b k calls).conversationCtx.map (fun t => t.Round)
        = b.conversationCtx.map (fun t => t.Round)
          ++ (List.range' k calls.length).map (fun i => Int.ofNat i) := by
  intro calls
  induction calls with
  | nil => intro b k; simp [applyAddTurnCalls]
  | cons c rest ih =>
    intro b k
    rw [applyAddTurnCalls, ih]
    simp only [ContextBuilder.AddTurn, List.map_append, List.length_cons]
    rw [List.range'_succ k rest.length 1]
    simp [List.append_assoc]

theorem flatMap_turnMessages_length :
    ∀ l : List ConversationTurn,
      (l.flatMap turnMessages).length
        = (l.map (fun t => 2 + t.ToolCalls.length)).sum := by
  intro l
  induction l with
  | nil => rfl
  | cons turn rest ih =>
    simp only [List.flatMap_cons, List.length_append, ih, List.map_cons, List.sum_cons,
      turnMessages, List.length_cons, List.length_map]
    omega

theorem toOpenAIMessages_length (r : ReplayContext) :
    r.ToOpenAIMessages.length
      = 1 + ((r.ConversationHistory.map (fun t => 2 + t.ToolCalls.length)).sum) := by
  rw [toOpenAIMessages_eq, List.length_cons, flatMap_turnMessages_length]
  omega

theorem collect_eq_filterMap :
    ∀ items : List JsonValue,
      collectMessageObjects items
        = items.filterMap (fun j => match j with | .obj fields => some fields | _ => none) := by
  intro items
  induction items with
  | nil => rfl
  | cons j rest ih => cases j <;> simp [collectMessageObjects, List.filterMap_cons, ih]

/-- The single tool of the round-trip example in spec section 8:
`{"type": "function", "function": {"name": "get_weather"}}`. -/
def exampleTool : Tool :=
  { type := "function"
    Function := { Name := "get_weather", Description := "", Parameters := .null } }

/-- Zero token usage for the round-trip example. -/
def exampleTokenUsage : TokenUsage :=
  { PromptTokens := 0, CompletionTokens := 0, TotalTokens := 0 }

/-- The round-2 tool call of the round-trip example:
`{toolName: "noop", result: "ok", toolID: "t1"}`. -/
def exampleToolCall : ToolCallExecution :=
  recordToolExecution "noop" "t1" [] "ok" 0 0

/-- The round-trip example context of spec section 8: system prompt
`"sys"`, one tool, round 1 user `"Hi"` / assistant `"Hello"`, round 2
user `"Bye"` / assistant `"Goodbye"` with one tool call. -/
def exampleReplayContext : ReplayContext :=
  (((((NewContextBuilder "user-1" "https://api.example.com/v1" "demo-model").SetSystemPrompt
      "sys" []).SetTools [exampleTool]).AddTurn 1 "Hi" "Hello" [] exampleTokenUsage
      "trace-1" "ts1").AddTurn 2 "Bye" "Goodbye" [exampleToolCall] exampleTokenUsage
      "trace-2" "ts2").Build "trace-2" 0

/-- The canonical message sequence the example context projects to. -/
def exampleMessages : List ChatCompletionMessage :=
  [ { Role := ChatMessageRoleSystem, Content := "sys", ToolCallID := "" }
  , { Role := ChatMessageRoleUser, Content := "Hi", ToolCallID := "" }
  , { Role := ChatMessageRoleAssistant, Content := "Hello", ToolCallID := "" }
  , { Role := ChatMessageRoleUser, Content := "Bye", ToolCallID := "" }
  , { Role := ChatMessageRoleAssistant, Content := "Goodbye", ToolCallID := "" }
  , { Role := ChatMessageRoleTool, Content := "ok", ToolCallID := "t1" } ]

/-- Claim C1, counterexample to the stated message count: the example
context's canonical projection has 6 messages (system + 2 per turn +
one per tool call), not 7 as the claim asserts. -/
theorem roundtrip_seven_message_counterexample :
    (ReplayContext.ToOpenAIMessages exampleReplayContext).length ≠ 7 := by
  have h : (ReplayContext.ToOpenAIMessages exampleReplayContext).length = 6 := rfl
  omega

/-- Claim C1 (amended): encoding a replay context and decoding the
document back yields a context with the same canonical message
projection, and for the spec's concrete example (system prompt "sys",
one tool, turns Hi/Hello and Bye/Goodbye with tool result "ok",
toolID "t1") both projections are the identical 6-message sequence:
system, user "Hi", assistant "Hello", user "Bye", assistant "Goodbye",
tool "ok" with tool_call_id "t1". -/
theorem replay_context_roundtrip :
    (∀ r : ReplayContext,
      (decodeReplayContext r.ToJSON).map ReplayContext.ToOpenAIMessages
        = some r.ToOpenAIMessages)
    ∧ exampleReplayContext.ToOpenAIMessages = exampleMessages
    ∧ (decodeReplayContext exampleReplayContext.ToJSON).map ReplayContext.ToOpenAIMessages
        = some exampleMessages := by
  refine ⟨fun r => ?_, ?_, ?_⟩
  · rw [decodeReplayContext_ToJSON]; rfl
  · rfl
  · rw [decodeReplayContext_ToJSON]; rfl

/-- Claim C2: the canonical projection emits exactly, in order, one
system message from the system prompt, then per turn (in stored order)
one user message, one assistant message, and one tool message per
recorded tool call (role "tool", content the tool's result,
tool_call_id the tool's toolID); its length is 1 plus the sum over
turns of (2 plus the turn's number of tool calls). -/
theorem toCanonicalMessages_emission_spec :
    ∀ r : ReplayContext,
      r.ToOpenAIMessages =
        { Role := ChatMessageRoleSystem, Content := r.SystemPrompt.Content, ToolCallID := "" } ::
          r.ConversationHistory.flatMap (fun turn =>
            { Role := ChatMessageRoleUser, Content := turn.UserInput.Content, ToolCallID := "" } ::
            { Role := ChatMessageRoleAssistant, Content := turn.LLMResponse.Content, ToolCallID := "" } ::
            turn.ToolCalls.map (fun tc =>
              { Role := ChatMessageRoleTool, Content := tc.Result, ToolCallID := tc.ToolID }))
      ∧ r.ToOpenAIMessages.length
          = 1 + ((r.ConversationHistory.map (fun t => 2 + t.ToolCalls.length)).sum) := by
  intro r
  exact ⟨toOpenAIMessages_eq r, toOpenAIMessages_length r⟩

/-- Claim C3, counterexample: on the input side a single key/value
object is NOT emitted as-is; the roleless object `{"content": "hi"}`
is wrapped as a synthesized user message whose content is the whole
object, so the claim fails for fieldRole "input". -/
theorem normalize_single_object_input_counterexample :
    normalizeInput (.obj [("content", .str "hi")])
      ≠ [[("content", JsonValue.str "hi")]] := by
  have heq : normalizeInput (.obj [("content", .str "hi")])
      = [[("role", JsonValue.str "user"),
          ("content", JsonValue.obj [("content", JsonValue.str "hi")])]] := rfl
  rw [heq]
  simp

/-- Claim C3 (amended): for fieldRole "output" a single key/value
object is emitted as the one message with exactly that object's fields
(role absence preserved); for fieldRole "input" the code has no
single-object case — any non-nil non-array value, a single object
included, is wrapped as one synthesized message with role "user" and
content equal to the value. -/
theorem normalize_single_object_amended :
    (∀ fields : MessageObject, normalizeOutput (.obj fields) = [fields])
    ∧ (∀ fields : MessageObject,
      normalizeInput (.obj fields)
        = [[("role", JsonValue.str "user"), ("content", JsonValue.obj fields)]]) :=
  ⟨fun _ => rfl, fun _ => rfl⟩

/-- Claim C4: the turn extractor selects the first observation in
stored order whose type is "GENERATION" (stable first-encountered
order), fails with NoGenerationFound (modelled `none`) exactly when no
observation has that type, and the extracted messages are the
normalization of the selected observation's input followed by the
normalization of its output. -/
theorem extractFirstGeneration_spec :
    (∀ observations : List ObservationDetails,
      firstGeneration observations
        = (observations.filter (fun o => decide (o.type = "GENERATION"))).head?)
    ∧ (∀ observations : List ObservationDetails,
      (firstGeneration observations = none ↔ ∀ o ∈ observations, o.type ≠ "GENERATION"))
    ∧ (∀ (observations : List ObservationDetails) (g : ObservationDetails),
      firstGeneration observations = some g →
        extractContextMessages observations
          = some (normalizeInput g.Input ++ normalizeOutput g.Output))
    ∧ (∀ observations : List ObservationDetails,
      firstGeneration observations = none → extractContextMessages observations = none) := by
  refine ⟨?_, ?_, ?_, ?_⟩
  · intro observations
    induction observations with
    | nil => rfl
    | cons o rest ih =>
      by_cases h : o.type = "GENERATION" <;>
        simp [firstGeneration, List.filter_cons, h, ih]
  · intro observations
    induction observations with
    | nil => simp [firstGeneration]
    | cons o rest ih =>
      by_cases h : o.type = "GENERATION" <;>
        simp [firstGeneration, h, ih]
  · intro observations g h
    unfold extractContextMessages
    rw [h]
  · intro observations h
    unfold extractContextMessages
    rw [h]

/-- Demo observation of type SPAN (not selected by the extractor). -/
def demoSpan : ObservationDetails :=
  { ID := "obs-1", type := "SPAN", Input := .str "ctx", Output := .null }

/-- Demo observation of type GENERATION with scalar input and output. -/
def demoGen : ObservationDetails :=
  { ID := "obs-2", type := "GENERATION", Input := .str "Q", Output := .str "A" }

/-- Witness for claim C4 at a concrete trace: the SPAN observation is
skipped, the GENERATION observation is selected, and its scalar input
and output normalize to a user and an assistant message. -/
theorem extractFirstGeneration_spec_witness :
    extractContextMessages [demoSpan, demoGen]
      = some [[("role", JsonValue.str "user"), ("content", JsonValue.str "Q")],
              [("role", JsonValue.str "assistant"), ("content", JsonValue.str "A")]] := by
  have h := extractFirstGeneration_spec.2.2.1 [demoSpan, demoGen] demoGen rfl
  rw [h]
  rfl

/-- Claim C5: each `AddTurn` call appends exactly one turn carrying the
caller-supplied round verbatim (no monotonicity validation), and a
sequence of calls with rounds 1..n on a fresh builder yields a history
of length n whose i-th entry has round i+1. -/
theorem addTurn_round_spec :
    (∀ (b : ContextBuilder) (round : Int) (userMsg assistantResp : String)
        (toolCalls : List ToolCallExecution) (tokenUsage : TokenUsage)
        (traceID now : String),
      ((b.AddTurn round userMsg assistantResp toolCalls tokenUsage traceID now).conversationCtx).map
          (fun t => t.Round)
        = (b.conversationCtx.map (fun t => t.Round)) ++ [round]
      ∧ (b.AddTurn round userMsg assistantResp toolCalls tokenUsage traceID now).conversationCtx.length
        = b.conversationCtx.length + 1)
    ∧ (∀ (userID baseURL model : String) (calls : List AddTurnCall),
      (applyAddTurnCalls (NewContextBuilder userID baseURL model) 1 calls).conversationCtx.length
          = calls.length
      ∧ (applyAddTurnCalls (NewContextBuilder userID baseURL model) 1 calls).conversationCtx.map
            (fun t => t.Round)
          = (List.range' 1 calls.length).map (fun i => Int.ofNat i)) := by
  constructor
  · intro b round userMsg assistantResp toolCalls tokenUsage traceID now
    exact ⟨by simp [ContextBuilder.AddTurn], by simp [ContextBuilder.AddTurn]⟩
  · intro userID baseURL model calls
    have h := applyAddTurnCalls_rounds calls (NewContextBuilder userID baseURL model) 1
    constructor
    · have hlen := congrArg List.length h
      simp only [List.length_map, List.length_append, List.length_range'] at hlen
      rw [hlen]
      simp [NewContextBuilder]
    · simpa [NewContextBuilder] using h

/-- Claim C6: `Build` snapshots the builder's current configuration
(session ID, model config, system prompt, tools) and the full history
accumulated so far, and no sequence of later builder operations
disturbs the history prefix such a snapshot captured — builder
operations only ever append to (or leave alone) the turn list, so the
snapshot's view is identical before and after the mutations. -/
theorem build_snapshot_spec :
    (∀ (b : ContextBuilder) (traceID : String) (now : GoTime),
      (b.Build traceID now).SessionID = b.sessionID
      ∧ (b.Build traceID now).ModelConfig = b.modelConfig
      ∧ (b.Build traceID now).SystemPrompt = b.systemPrompt
      ∧ (b.Build traceID now).Tools = b.tools
      ∧ (b.Build traceID now).ConversationHistory = b.conversationCtx)
    ∧ (∀ (b : ContextBuilder) (ops : List BuilderOp),
      ((applyOps b ops).conversationCtx).take b.conversationCtx.length
        = b.conversationCtx) := by
  constructor
  · intro b traceID now
    exact ⟨rfl, rfl, rfl, rfl, rfl⟩
  · intro b ops
    obtain ⟨tail, h⟩ := applyOps_ctx_append ops b
    rw [h]
    exact List.take_left _ _

/-- Claim C7: for an array value, normalization keeps exactly the
key/value-object elements in their original relative order, silently
dropping every non-object element, on both the input and the output
side; on the spec's example array it yields the two object elements. -/
theorem normalize_array_filter_spec :
    (∀ items : List JsonValue,
      normalizeInput (.arr items)
        = items.filterMap (fun j => match j with | .obj fields => some fields | _ => none))
    ∧ (∀ items : List JsonValue,
      normalizeOutput (.arr items)
        = items.filterMap (fun j => match j with | .obj fields => some fields | _ => none))
    ∧ normalizeInput (.arr
        [ .str "a"
        , .obj [("role", .str "user"), ("content", .str "hi")]
        , .num 3
        , .obj [("role", .str "tool"), ("content", .str "x")] ])
      = [ [("role", JsonValue.str "user"), ("content", JsonValue.str "hi")]
        , [("role", JsonValue.str "tool"), ("content", JsonValue.str "x")] ] :=
  ⟨fun items => collect_eq_filterMap items, fun items => collect_eq_filterMap items, rfl⟩

/-- Claim C8: a scalar value normalizes to exactly one synthesized
message — role "user" for fieldRole input, role "assistant" for
fieldRole output — with the scalar as content; a nil value normalizes
to zero messages; and normalization is total (never fails) on every
value shape. -/
theorem normalize_scalar_nil_spec :
    (∀ s : String, normalizeInput (.str s)
      = [[("role", JsonValue.str "user"), ("content", JsonValue.str s)]])
    ∧ (∀ q : Rat, normalizeInput (.num q)
      = [[("role", JsonValue.str "user"), ("content", JsonValue.num q)]])
    ∧ (∀ b : Bool, normalizeInput (.bool b)
      = [[("role", JsonValue.str "user"), ("content", JsonValue.bool b)]])
    ∧ (∀ s : String, normalizeOutput (.str s)
      = [[("role", JsonValue.str "assistant"), ("content", JsonValue.str s)]])
    ∧ (∀ q : Rat, normalizeOutput (.num q)
      = [[("role", JsonValue.str "assistant"), ("content", JsonValue.num q)]])
    ∧ (∀ b : Bool, normalizeOutput (.bool b)
      = [[("role", JsonValue.str "assistant"), ("content", JsonValue.bool b)]])
    ∧ normalizeInput .null = []
    ∧ normalizeOutput .null = []
    ∧ (∀ v : JsonValue, ∃ messages, normalizeInput v = messages)
    ∧ (∀ v : JsonValue, ∃ messages, normalizeOutput v = messages) :=
  ⟨fun _ => rfl, fun _ => rfl, fun _ => rfl, fun _ => rfl, fun _ => rfl, fun _ => rfl,
   rfl, rfl, fun _ => ⟨_, rfl⟩, fun _ => ⟨_, rfl⟩⟩

/-- Claim C9: a recorded tool invocation with endTime >= startTime has
durationMs = endTime - startTime (non-negative), success hardcoded
true with the error field unset (so the success/error relation holds),
and `AddTurn` stores the supplied tool-call list verbatim — a call
recorded with success=false is still appended rather than aborting
turn assembly. -/
theorem recordToolExecution_spec :
    (∀ (toolName toolID : String) (arguments : List (String × JsonValue))
        (result : String) (startTime endTime : GoTime),
      startTime ≤ endTime →
        (recordToolExecution toolName toolID arguments result startTime endTime).DurationMs
            = endTime - startTime
        ∧ 0 ≤ (recordToolExecution toolName toolID arguments result startTime endTime).DurationMs
        ∧ (recordToolExecution toolName toolID arguments result startTime endTime).Success = true
        ∧ (recordToolExecution toolName toolID arguments result startTime endTime).Error = "")
    ∧ (∀ (b : ContextBuilder) (round : Int) (userMsg assistantResp : String)
        (toolCalls : List ToolCallExecution) (tokenUsage : TokenUsage) (traceID now : String),
      ((b.AddTurn round userMsg assistantResp toolCalls tokenUsage traceID now).conversationCtx).getLast?.map
          (fun t => t.ToolCalls) = some toolCalls) := by
  constructor
  · intro toolName toolID arguments result startTime endTime h
    refine ⟨rfl, ?_, rfl, rfl⟩
    simp only [recordToolExecution]
    exact Int.sub_nonneg.mpr h
  · intro b round userMsg assistantResp toolCalls tokenUsage traceID now
    simp [ContextBuilder.AddTurn, List.getLast?_concat]

/-- Witness for claim C9 at a concrete invocation (start 0, end 5). -/
theorem recordToolExecution_spec_witness :
    (recordToolExecution "noop" "t1" [] "ok" 0 5).DurationMs = 5 - 0
    ∧ 0 ≤ (recordToolExecution "noop" "t1" [] "ok" 0 5).DurationMs
    ∧ (recordToolExecution "noop" "t1" [] "ok" 0 5).Success = true
    ∧ (recordToolExecution "noop" "t1" [] "ok" 0 5).Error = "" :=
  recordToolExecution_spec.1 "noop" "t1" [] "ok" 0 5 (by decide)

/-- Claim C10: the canonical projection unconditionally begins with a
system-role message whose content is the stored system prompt content,
and its length is always 1 plus the sum over turns of (2 plus the
turn's tool-call count); for a context built from a fresh builder on
which `SetSystemPrompt` was never called, that leading system message
has empty content rather than being omitted. -/
theorem projection_system_head_spec :
    (∀ r : ReplayContext,
      r.ToOpenAIMessages.head?
          = some { Role := ChatMessageRoleSystem, Content := r.SystemPrompt.Content,
                   ToolCallID := "" }
      ∧ r.ToOpenAIMessages.length
          = 1 + ((r.ConversationHistory.map (fun t => 2 + t.ToolCalls.length)).sum))
    ∧ (∀ (userID baseURL model traceID : String) (now : GoTime) (ops : List BuilderOp),
      (∀ op ∈ ops, op.isSetSystemPrompt = false) →
        ((applyOps (NewContextBuilder userID baseURL model) ops).Build
            traceID now).ToOpenAIMessages.head?
          = some { Role := ChatMessageRoleSystem, Content := "", ToolCallID := "" }) := by
  constructor
  · intro r
    refine ⟨?_, toOpenAIMessages_length r⟩
    rw [toOpenAIMessages_eq]
    rfl
  · intro userID baseURL model traceID now ops h
    have hsp := applyOps_systemPrompt ops (NewContextBuilder userID baseURL model) h
    have hc : ((applyOps (NewContextBuilder userID baseURL model) ops).Build
        traceID now).SystemPrompt.Content = "" := by
      show (applyOps (NewContextBuilder userID baseURL model) ops).systemPrompt.Content = ""
      rw [hsp]
      rfl
    rw [toOpenAIMessages_eq, hc]
    rfl

/-- Witness for claim C10: a fresh builder mutated by a SetSessionID
and an AddTurn (but never SetSystemPrompt) builds a context whose
first canonical message is a system message with empty content. -/
theorem projection_system_head_spec_witness :
    ((applyOps (NewContextBuilder "u" "https://api.example.com/v1" "demo-model")
        [ BuilderOp.setSessionID "s"
        , BuilderOp.addTurn 1 "Hi" "Hello" []
            { PromptTokens := 0, CompletionTokens := 0, TotalTokens := 0 } "trace-1" "ts1" ]).Build
        "trace-1" 0).ToOpenAIMessages.head?
      = some { Role := ChatMessageRoleSystem, Content := "", ToolCallID := "" } := by
  refine projection_system_head_spec.2 "u" "https://api.example.com/v1" "demo-model"
    "trace-1" 0 _ ?_
  intro op hop
  simp only [List.mem_cons, List.mem_singleton] at hop
  rcases hop with rfl | rfl | h
  · rfl
  · rfl
  · simp at h
